import Mathlib

/-
Verification of the strict-soup wrapper library.

The repository is a thin extension layer over an HTML/XML parsing engine
(BeautifulSoup + the SoupSieve CSS matcher): it adds strict variants of the
selection and attribute-access operations that raise a StrictSelectError
instead of returning empty results or None.  The parsing and CSS matching
engine itself is an external collaborator, modelled here as an abstract
match oracle; the wrapper code of src/src/strict_soup/__init__.py is
embedded faithfully below.
-/

namespace StrictSoup

/-- Attribute values as produced by the native attribute read (bs4 Tag.get):
either a plain string or a multi-valued list (the engine represents
attributes such as class as a sequence of strings). -/
inductive AttrValue where
  | str (s : String)
  | list (xs : List String)
deriving Repr, DecidableEq

/-- A parsed document node.  The field isStrict models the runtime class of
the Python instance: true when its class pointer is StrictTag (so the node
exposes the strict operation set), false when it is the plain native class.
id models object identity; attrs the attribute mapping. -/
structure Tag where
  id : Nat
  attrs : List (String × AttrValue)
  isStrict : Bool
deriving Repr, DecidableEq

/-- The Python exceptions that appear in the embedded code. -/
inductive PyError where
  | strictSelectError (msg : String)
  | valueError (msg : String)
  | indexError (msg : String)
  | notImplementedError (msg : String)
deriving Repr, DecidableEq

/-- Optional namespace mapping argument of the selection operations. -/
abbrev NamespaceMap := Option (List (String × String))

/-- Extra keyword arguments forwarded to the SoupSieve matcher. -/
abbrev Kwargs := List (String × String)

/-- The external CSS matching engine (SoupSieve), an abstract oracle: the
full list of matches of a selector under a node, in document order, given
the namespace mapping and keyword arguments.  This code lives outside the
repository; the wrapper only observes the shape of its results. -/
abbrev MatchFun := Tag → String → NamespaceMap → Kwargs → List Tag

/-- Result-count limiting as performed by the native engine: a limit of
None means no limit; SoupSieve additionally treats a limit of 0 as
unlimited. -/
def truncateLimit : Option Nat → List Tag → List Tag
  | none, xs => xs
  | some 0, xs => xs
  | some (n + 1), xs => xs.take (n + 1)

/-- The native Tag.select of the wrapped engine: the oracle matches,
truncated to the caller-supplied limit. -/
def nativeSelect (m : MatchFun) (t : Tag) (selector : String)
    (namespaces : NamespaceMap) (limit : Option Nat) (kwargs : Kwargs) : List Tag :=
  truncateLimit limit (m t selector namespaces kwargs)

/-- The native Tag.select_one of the wrapped engine: the first match in
document order, or None when there is none. -/
def nativeSelectOne (m : MatchFun) (t : Tag) (selector : String)
    (namespaces : NamespaceMap) (kwargs : Kwargs) : Option Tag :=
  (m t selector namespaces kwargs).head?

/-- The native Tag.get of the wrapped engine: the attribute value for key,
or None when the node does not have that attribute. -/
def Tag.get (t : Tag) (key : String) : Option AttrValue :=
  (t.attrs.find? (fun p => p.1 == key)).map (fun p => p.2)

/-- The value-level effect of the class assignment in _convert_to_strict_tag
(the statement setting the class pointer of the tag to StrictTag): the same
node, now exposing the strict operation set. -/
def asStrictTag (t : Tag) : Tag := { t with isStrict := true }

/-- Embeds _convert_to_strict_tag: raises ValueError when given None,
otherwise sets the class of the tag to StrictTag and returns it. -/
def convert_to_strict_tag : Option Tag → Except PyError Tag
  | none => Except.error (PyError.valueError "Cannot convert None to StrictTag")
  | some tag => Except.ok (asStrictTag tag)

/-- Embeds StrictTag.select: delegates to the native select and converts
every item of the result to a StrictTag. -/
def StrictTag.select (m : MatchFun) (t : Tag) (selector : String)
    (namespaces : NamespaceMap) (limit : Option Nat) (kwargs : Kwargs) :
    Except PyError (List Tag) := do
  let output := nativeSelect m t selector namespaces limit kwargs
  let converted ← output.mapM (fun item => convert_to_strict_tag (some item))
  return converted

/-- Embeds StrictTag.select_one: delegates to the native select_one and
converts the result when it is not None. -/
def StrictTag.select_one (m : MatchFun) (t : Tag) (selector : String)
    (namespaces : NamespaceMap) (kwargs : Kwargs) :
    Except PyError (Option Tag) :=
  match nativeSelectOne m t selector namespaces kwargs with
  | some output => (convert_to_strict_tag (some output)).map (fun s => some s)
  | none => Except.ok none

/-- Embeds StrictTag.strict_select: calls select with identical arguments
and raises StrictSelectError when the result is empty. -/
def StrictTag.strict_select (m : MatchFun) (t : Tag) (selector : String)
    (namespaces : NamespaceMap) (limit : Option Nat) (kwargs : Kwargs) :
    Except PyError (List Tag) := do
  let output ← StrictTag.select m t selector namespaces limit kwargs
  if output.length = 0 then
    Except.error (PyError.strictSelectError
      ("No matches found for strict_select(" ++ selector ++ ")"))
  else
    return output

/-- Embeds StrictTag.strict_select_one: calls strict_select with identical
arguments and raises StrictSelectError when there is not exactly one match;
otherwise returns output[0] (indexing the empty list would be an
IndexError, modelled by the unreachable last branch). -/
def StrictTag.strict_select_one (m : MatchFun) (t : Tag) (selector : String)
    (namespaces : NamespaceMap) (limit : Option Nat) (kwargs : Kwargs) :
    Except PyError Tag := do
  let output ← StrictTag.strict_select m t selector namespaces limit kwargs
  if output.length ≠ 1 then
    Except.error (PyError.strictSelectError
      ("Found " ++ toString output.length ++ " matches for strict_select_one("
        ++ selector ++ ")"))
  else
    match output with
    | x :: _ => return x
    | [] => Except.error (PyError.indexError "list index out of range")

/-- Embeds StrictTag.strict_get: delegates to the native get and raises
StrictSelectError when the result is not a plain string (absent attribute
or a multi-valued representation). -/
def StrictTag.strict_get (t : Tag) (key : String) : Except PyError String :=
  match t.get key with
  | some (AttrValue.str s) => Except.ok s
  | _ => Except.error (PyError.strictSelectError
      ("No matches found for strict_get(" ++ key ++ ")"))

/-- Embeds StrictSoup.insert_after: a dummy method that raises
NotImplementedError unconditionally on the whole-document node. -/
def insert_after (args : List String) : Except PyError Unit :=
  Except.error (PyError.notImplementedError
    ("This is not implemented, the args of " ++ toString args ++ " do nothing."))

/-- Embeds StrictSoup.insert_before: a dummy method that raises
NotImplementedError unconditionally on the whole-document node. -/
def insert_before (args : List String) : Except PyError Unit :=
  Except.error (PyError.notImplementedError
    ("This is not implemented, the args of " ++ toString args ++ " do nothing."))

/-- The list returned inside Except.ok by StrictTag.select: the native
matches under limit, each converted to a StrictTag. -/
def wrapSelect (m : MatchFun) (t : Tag) (selector : String)
    (namespaces : NamespaceMap) (limit : Option Nat) (kwargs : Kwargs) : List Tag :=
  (nativeSelect m t selector namespaces limit kwargs).map asStrictTag

/-- The runtime class of every node instance, keyed by object identity:
false is the native class (bs4 Tag or BeautifulSoup), true the strict
class.  Models the class pointer that the assignment in
_convert_to_strict_tag mutates in place. -/
def ClassMap : Type := Nat → Bool

/-- Effect of the class assignment of _convert_to_strict_tag on the class
map: exactly the converted instance now has the strict class. -/
def convertClassEffect (cm : ClassMap) (tagId : Nat) : ClassMap :=
  fun i => if i = tagId then true else cm i

/-- Effect of the conversion loop of StrictTag.select on the class map: the
class assignment is applied to each matched instance in order. -/
def selectClassEffect (cm : ClassMap) (ids : List Nat) : ClassMap :=
  ids.foldl convertClassEffect cm

/-- Modelled from the spec: parsing with the plain unaugmented engine
(bs4.BeautifulSoup, external to this repository, exercised by the TestBS4
tests) yields instances whose class is the native one. -/
def plainParseClassMap : ClassMap := fun _ => false

/-- Whether the instance with the given identity exposes the strict
operation set: exactly when its runtime class is the strict class. -/
def exposesStrictOps (cm : ClassMap) (i : Nat) : Bool := cm i

section Demo

/-- The h1 node of the concrete test document of the repository, carrying
the attribute value="123". -/
def h1Tag : Tag := ⟨0, [("value", AttrValue.str "123")], false⟩

/-- The first h2 node of the concrete test document. -/
def h2TagA : Tag := ⟨1, [], false⟩

/-- The second h2 node of the concrete test document. -/
def h2TagB : Tag := ⟨2, [], false⟩

/-- The root node of the concrete test document, parsed as a StrictSoup. -/
def demoRoot : Tag := ⟨3, [], true⟩

/-- A node carrying a multi-valued attribute, as the native engine
represents the class attribute. -/
def multiAttrTag : Tag := ⟨4, [("class", AttrValue.list ["a", "b"])], false⟩

/-- The match oracle of the concrete test document used by the repository's
tests: one h1 match, two h2 matches in document order, nothing else. -/
def demoMatches : MatchFun := fun _ sel _ _ =>
  if sel = "h1" then [h1Tag]
  else if sel = "h2" then [h2TagA, h2TagB]
  else []

end Demo

/-- Pure in the Except monad is the ok constructor. -/
theorem except_pure {α : Type} (a : α) : (pure a : Except PyError α) = Except.ok a := rfl

/-- Bind on a successful Except value reduces to application. -/
theorem except_bind_ok {α β : Type} (a : α) (f : α → Except PyError β) :
    (Except.ok a >>= f) = f a := rfl

/-- Bind on a failed Except value propagates the failure. -/
theorem except_bind_err {α β : Type} (e : PyError) (f : α → Except PyError β) :
    ((Except.error e : Except PyError α) >>= f) = Except.error e := rfl

/-- Converting a list of real tags never raises: it yields exactly the
strictified list. -/
theorem mapM_convert (l : List Tag) :
    (l.mapM (fun item => convert_to_strict_tag (some item)) : Except PyError (List Tag))
      = Except.ok (l.map asStrictTag) := by
  rw [← List.mapM'_eq_mapM]
  induction l with
  | nil => rfl
  | cons x xs ih =>
    rw [List.mapM'_cons, ih]
    rfl

/-- StrictTag.select never raises: it returns exactly the limited native
matches, each converted to a StrictTag. -/
theorem select_eq (m : MatchFun) (t : Tag) (sel : String) (ns : NamespaceMap)
    (lim : Option Nat) (kw : Kwargs) :
    StrictTag.select m t sel ns lim kw = Except.ok (wrapSelect m t sel ns lim kw) := by
  simp only [StrictTag.select, wrapSelect, mapM_convert, except_bind_ok, except_pure]

/-- Unfolding equation for strict_select: an empty select result raises,
anything else is passed through. -/
theorem strict_select_eq (m : MatchFun) (t : Tag) (sel : String) (ns : NamespaceMap)
    (lim : Option Nat) (kw : Kwargs) :
    StrictTag.strict_select m t sel ns lim kw =
      if wrapSelect m t sel ns lim kw = [] then
        Except.error (PyError.strictSelectError
          ("No matches found for strict_select(" ++ sel ++ ")"))
      else
        Except.ok (wrapSelect m t sel ns lim kw) := by
  unfold StrictTag.strict_select
  rw [select_eq, except_bind_ok]
  rcases h : wrapSelect m t sel ns lim kw with _ | ⟨x, xs⟩ <;>
    simp [except_pure]

/-- Unfolding equation for strict_select_one: zero matches propagate the
strict_select error, one match is returned, two or more raise with the
observed count in the message. -/
theorem strict_select_one_eq (m : MatchFun) (t : Tag) (sel : String)
    (ns : NamespaceMap) (lim : Option Nat) (kw : Kwargs) :
    StrictTag.strict_select_one m t sel ns lim kw =
      match wrapSelect m t sel ns lim kw with
      | [] => Except.error (PyError.strictSelectError
          ("No matches found for strict_select(" ++ sel ++ ")"))
      | [x] => Except.ok x
      | _ :: _ :: rest => Except.error (PyError.strictSelectError
          ("Found " ++ toString (rest.length + 2) ++ " matches for strict_select_one("
            ++ sel ++ ")")) := by
  unfold StrictTag.strict_select_one
  rw [strict_select_eq]
  rcases h : wrapSelect m t sel ns lim kw with _ | ⟨_, _ | ⟨_, rest⟩⟩
  · simp [except_bind_err]
  · simp [except_bind_ok, except_pure]
  · rw [if_neg (by simp), except_bind_ok]
    simp

/-- StrictTag.select_one never raises: it returns the first native match
converted to a StrictTag, or none. -/
theorem select_one_eq (m : MatchFun) (t : Tag) (sel : String) (ns : NamespaceMap)
    (kw : Kwargs) :
    StrictTag.select_one m t sel ns kw =
      Except.ok ((nativeSelectOne m t sel ns kw).map asStrictTag) := by
  unfold StrictTag.select_one
  rcases nativeSelectOne m t sel ns kw with _ | o <;> rfl

/-- Every element of the converted selection result has the strict class. -/
theorem mem_wrapSelect_isStrict (m : MatchFun) (t : Tag) (sel : String)
    (ns : NamespaceMap) (lim : Option Nat) (kw : Kwargs) :
    ∀ r ∈ wrapSelect m t sel ns lim kw, r.isStrict = true := by
  intro r hr
  rcases List.mem_map.mp hr with ⟨x, _, rfl⟩
  rfl

/-- Limiting an empty match list yields the empty list for every limit. -/
theorem truncateLimit_nil (lim : Option Nat) : truncateLimit lim [] = [] := by
  rcases lim with _ | _ | n <;> rfl

/-- The no-matches message of strict_select is never equal to a
count-reporting message of strict_select_one: their first characters
differ. -/
theorem noMatch_ne_found (sel sel2 : String) (n : Nat) :
    ("No matches found for strict_select(" ++ sel ++ ")") ≠
      ("Found " ++ toString n ++ " matches for strict_select_one(" ++ sel2 ++ ")") := by
  intro h
  have h2 := congrArg (fun s => s.data.head?) h
  simp only [String.data_append] at h2
  simp at h2

/-- The class-update effect of a list of conversions touches only the
listed identities. -/
theorem selectClassEffect_not_mem (cm : ClassMap) (ids : List Nat) (i : Nat)
    (h : i ∉ ids) : selectClassEffect cm ids i = cm i := by
  induction ids generalizing cm with
  | nil => rfl
  | cons x xs ih =>
    have hx : i ≠ x := by
      intro e
      exact h (e ▸ List.mem_cons_self x xs)
    have hxs : i ∉ xs := fun hm => h (List.mem_cons_of_mem x hm)
    show selectClassEffect (convertClassEffect cm x) xs i = cm i
    rw [ih (convertClassEffect cm x) hxs]
    unfold convertClassEffect
    rw [if_neg hx]

/-- C2: for every selector, namespaces, limit and options, strict_select
raises StrictSelectError exactly when select with identical arguments
returns the empty MatchSet, and otherwise returns that MatchSet unchanged,
so a returned MatchSet always has size at least one. -/
theorem strict_select_empty_iff_error (m : MatchFun) (t : Tag) (sel : String)
    (ns : NamespaceMap) (lim : Option Nat) (kw : Kwargs) :
    (StrictTag.select m t sel ns lim kw = Except.ok (wrapSelect m t sel ns lim kw))
  ∧ (wrapSelect m t sel ns lim kw = [] →
      StrictTag.strict_select m t sel ns lim kw =
        Except.error (PyError.strictSelectError
          ("No matches found for strict_select(" ++ sel ++ ")")))
  ∧ (wrapSelect m t sel ns lim kw ≠ [] →
      StrictTag.strict_select m t sel ns lim kw =
        Except.ok (wrapSelect m t sel ns lim kw))
  ∧ (∀ l, StrictTag.strict_select m t sel ns lim kw = Except.ok l → 1 ≤ l.length) := by
  refine ⟨select_eq m t sel ns lim kw, ?_, ?_, ?_⟩
  · intro h
    rw [strict_select_eq, if_pos h]
  · intro h
    rw [strict_select_eq, if_neg h]
  · intro l hl
    rw [strict_select_eq] at hl
    by_cases h : wrapSelect m t sel ns lim kw = []
    · rw [if_pos h] at hl
      cases hl
    · rw [if_neg h] at hl
      injection hl with he
      subst he
      exact List.length_pos.mpr h

/-- Witness for C2 at the concrete test document: selector h1 has one
match, so strict_select succeeds with a MatchSet of size one; selector h3
has none, so strict_select raises. -/
theorem strict_select_empty_iff_error_witness :
    (StrictTag.strict_select demoMatches demoRoot "h3" none none [] =
      Except.error (PyError.strictSelectError
        ("No matches found for strict_select(" ++ "h3" ++ ")")))
  ∧ (StrictTag.strict_select demoMatches demoRoot "h1" none none [] =
      Except.ok (wrapSelect demoMatches demoRoot "h1" none none []))
  ∧ 1 ≤ (wrapSelect demoMatches demoRoot "h1" none none []).length :=
  ⟨(strict_select_empty_iff_error demoMatches demoRoot "h3" none none []).2.1 (by decide),
   (strict_select_empty_iff_error demoMatches demoRoot "h1" none none []).2.2.1 (by decide),
   (strict_select_empty_iff_error demoMatches demoRoot "h1" none none []).2.2.2
     (wrapSelect demoMatches demoRoot "h1" none none [])
     ((strict_select_empty_iff_error demoMatches demoRoot "h1" none none []).2.2.1
       (by decide))⟩

/-- C3: strict_get returns the attribute value when the key is present with
a plain string value, and raises StrictSelectError when the key is absent
or the native read returns a multi-valued (list-typed) value. -/
theorem strict_get_spec (t : Tag) (key : String) :
    (∀ v, t.get key = some (AttrValue.str v) →
      StrictTag.strict_get t key = Except.ok v)
  ∧ (t.get key = none →
      StrictTag.strict_get t key = Except.error (PyError.strictSelectError
        ("No matches found for strict_get(" ++ key ++ ")")))
  ∧ (∀ xs, t.get key = some (AttrValue.list xs) →
      StrictTag.strict_get t key = Except.error (PyError.strictSelectError
        ("No matches found for strict_get(" ++ key ++ ")"))) := by
  refine ⟨?_, ?_, ?_⟩
  · intro v hv
    unfold StrictTag.strict_get
    rw [hv]
  · intro hv
    unfold StrictTag.strict_get
    rw [hv]
  · intro xs hv
    unfold StrictTag.strict_get
    rw [hv]

/-- Witness for C3 at concrete nodes: a present string attribute is
returned, an absent key raises, and a multi-valued attribute raises. -/
theorem strict_get_spec_witness :
    StrictTag.strict_get h1Tag "value" = Except.ok "123"
  ∧ StrictTag.strict_get h1Tag "missing_value" =
      Except.error (PyError.strictSelectError
        ("No matches found for strict_get(" ++ "missing_value" ++ ")"))
  ∧ StrictTag.strict_get multiAttrTag "class" =
      Except.error (PyError.strictSelectError
        ("No matches found for strict_get(" ++ "class" ++ ")")) :=
  ⟨(strict_get_spec h1Tag "value").1 "123" (by rfl),
   (strict_get_spec h1Tag "missing_value").2.1 (by rfl),
   (strict_get_spec multiAttrTag "class").2.2 ["a", "b"] (by rfl)⟩

/-- C7: the loose operations never raise on zero matches: with no native
match, select returns the empty MatchSet and select_one returns none. -/
theorem loose_ops_never_raise (m : MatchFun) (t : Tag) (sel : String)
    (ns : NamespaceMap) (lim : Option Nat) (kw : Kwargs)
    (h : m t sel ns kw = []) :
    StrictTag.select m t sel ns lim kw = Except.ok []
  ∧ StrictTag.select_one m t sel ns kw = Except.ok none := by
  have hw : wrapSelect m t sel ns lim kw = [] := by
    unfold wrapSelect nativeSelect
    rw [h, truncateLimit_nil]
    rfl
  constructor
  · rw [select_eq, hw]
  · rw [select_one_eq]
    unfold nativeSelectOne
    rw [h]
    rfl

/-- Witness for C7: selector h3 has zero matches in the concrete test
document; select returns the empty MatchSet and select_one returns none. -/
theorem loose_ops_never_raise_witness :
    StrictTag.select demoMatches demoRoot "h3" none none [] = Except.ok []
  ∧ StrictTag.select_one demoMatches demoRoot "h3" none [] = Except.ok none :=
  loose_ops_never_raise demoMatches demoRoot "h3" none none [] (by rfl)

/-- C9: on the whole-document node, insert_after and insert_before raise
NotImplementedError unconditionally, for every argument list. -/
theorem insert_raises_not_implemented (args1 args2 : List String) :
    (∃ msg, insert_after args1 = Except.error (PyError.notImplementedError msg))
  ∧ (∃ msg, insert_before args2 = Except.error (PyError.notImplementedError msg)) :=
  ⟨⟨_, rfl⟩, ⟨_, rfl⟩⟩

/-- C1 counterexample: with zero matches (selector h3 in the concrete test
document) strict_select_one raises a StrictSelectError whose message does
not report the observed match count: the digit 0 does not occur anywhere in
the message, which is the no-matches message of strict_select. -/
theorem strict_select_one_zero_message_lacks_count :
    StrictTag.strict_select_one demoMatches demoRoot "h3" none none [] =
      Except.error (PyError.strictSelectError
        "No matches found for strict_select(h3)")
  ∧ '0' ∉ "No matches found for strict_select(h3)".data :=
  ⟨rfl, by decide⟩

/-- C1 amended: strict_select_one raises StrictSelectError whenever the
underlying selection does not have exactly one match and returns the single
node otherwise; the raised message reports the observed match count when
that count is two or more, while the zero-match error carries the
no-matches message of strict_select, which names the selector but not the
count. -/
theorem strict_select_one_exactly_one (m : MatchFun) (t : Tag) (sel : String)
    (ns : NamespaceMap) (lim : Option Nat) (kw : Kwargs) :
    (wrapSelect m t sel ns lim kw = [] →
      StrictTag.strict_select_one m t sel ns lim kw =
        Except.error (PyError.strictSelectError
          ("No matches found for strict_select(" ++ sel ++ ")")))
  ∧ (∀ x, wrapSelect m t sel ns lim kw = [x] →
      StrictTag.strict_select_one m t sel ns lim kw = Except.ok x)
  ∧ (2 ≤ (wrapSelect m t sel ns lim kw).length →
      StrictTag.strict_select_one m t sel ns lim kw =
        Except.error (PyError.strictSelectError
          ("Found " ++ toString (wrapSelect m t sel ns lim kw).length
            ++ " matches for strict_select_one(" ++ sel ++ ")"))) := by
  refine ⟨?_, ?_, ?_⟩
  · intro h
    rw [strict_select_one_eq, h]
  · intro x h
    rw [strict_select_one_eq, h]
  · intro h2
    rw [strict_select_one_eq]
    rcases h : wrapSelect m t sel ns lim kw with _ | ⟨x, _ | ⟨y, rest⟩⟩
    · rw [h] at h2
      simp at h2
    · rw [h] at h2
      simp at h2
    · simp

/-- Witness for the amended C1: selector h2 has two matches in the concrete
test document, selector h1 exactly one; the three cases are exercised via
h2, h1 and h3. -/
theorem strict_select_one_exactly_one_witness :
    StrictTag.strict_select_one demoMatches demoRoot "h2" none none [] =
      Except.error (PyError.strictSelectError
        ("Found "
          ++ toString ((wrapSelect demoMatches demoRoot "h2" none none []).length : Nat)
          ++ " matches for strict_select_one(" ++ "h2" ++ ")"))
  ∧ StrictTag.strict_select_one demoMatches demoRoot "h1" none none [] =
      Except.ok (asStrictTag h1Tag) :=
  ⟨(strict_select_one_exactly_one demoMatches demoRoot "h2" none none []).2.2 (by decide),
   (strict_select_one_exactly_one demoMatches demoRoot "h1" none none []).2.1
     (asStrictTag h1Tag) (by rfl)⟩

/-- C10: with zero matches, the StrictSelectError raised by
strict_select_one is the very error propagated from strict_select, whose
message names the selector and reports no count; the count-reporting
message of strict_select_one appears only when the observed match count is
two or more. -/
theorem strict_select_one_zero_propagates (m : MatchFun) (t : Tag)
    (sel : String) (ns : NamespaceMap) (lim : Option Nat) (kw : Kwargs) :
    (wrapSelect m t sel ns lim kw = [] →
      StrictTag.strict_select m t sel ns lim kw =
        Except.error (PyError.strictSelectError
          ("No matches found for strict_select(" ++ sel ++ ")"))
      ∧ StrictTag.strict_select_one m t sel ns lim kw =
        Except.error (PyError.strictSelectError
          ("No matches found for strict_select(" ++ sel ++ ")")))
  ∧ (∀ n : Nat, StrictTag.strict_select_one m t sel ns lim kw =
        Except.error (PyError.strictSelectError
          ("Found " ++ toString n ++ " matches for strict_select_one(" ++ sel ++ ")"))
      → 2 ≤ (wrapSelect m t sel ns lim kw).length) := by
  constructor
  · intro h
    constructor
    · rw [strict_select_eq, if_pos h]
    · rw [strict_select_one_eq, h]
  · intro n hn
    rw [strict_select_one_eq] at hn
    rcases h : wrapSelect m t sel ns lim kw with _ | ⟨x, _ | ⟨y, rest⟩⟩
    · rw [h] at hn
      simp only [] at hn
      injection hn with he
      injection he with hmsg
      exact absurd hmsg (noMatch_ne_found sel sel n)
    · rw [h] at hn
      cases hn
    · simp

/-- Witness for C10: selector h3 has zero matches in the concrete test
document, and the h2 count message implies at least two matches. -/
theorem strict_select_one_zero_propagates_witness :
    (StrictTag.strict_select demoMatches demoRoot "h3" none none [] =
      Except.error (PyError.strictSelectError
        ("No matches found for strict_select(" ++ "h3" ++ ")"))
    ∧ StrictTag.strict_select_one demoMatches demoRoot "h3" none none [] =
      Except.error (PyError.strictSelectError
        ("No matches found for strict_select(" ++ "h3" ++ ")")))
  ∧ 2 ≤ (wrapSelect demoMatches demoRoot "h2" none none []).length :=
  ⟨(strict_select_one_zero_propagates demoMatches demoRoot "h3" none none []).1
     (by decide),
   (strict_select_one_zero_propagates demoMatches demoRoot "h2" none none []).2
     2 (by rfl)⟩

/-- C4: the selector h2 has two true matches in the concrete test document,
yet strict_select_one with limit 1 returns a single node instead of raising
StrictSelectError, because the caller-supplied limit is forwarded to the
underlying select before the exactly-one check. -/
theorem limit_one_masks_multi_match :
    2 ≤ (demoMatches demoRoot "h2" none []).length
  ∧ StrictTag.strict_select_one demoMatches demoRoot "h2" none (some 1) [] =
      Except.ok (asStrictTag h2TagA) :=
  ⟨by decide, rfl⟩

/-- C5: the augmentation is transitive: every node contained in a
successful result of select, select_one, strict_select or
strict_select_one has the StrictTag class, hence itself supports the full
strict operation set. -/
theorem augmentation_transitive (m : MatchFun) (t : Tag) (sel : String)
    (ns : NamespaceMap) (lim : Option Nat) (kw : Kwargs) :
    (∀ l, StrictTag.select m t sel ns lim kw = Except.ok l →
      ∀ r ∈ l, r.isStrict = true)
  ∧ (∀ r, StrictTag.select_one m t sel ns kw = Except.ok (some r) →
      r.isStrict = true)
  ∧ (∀ l, StrictTag.strict_select m t sel ns lim kw = Except.ok l →
      ∀ r ∈ l, r.isStrict = true)
  ∧ (∀ r, StrictTag.strict_select_one m t sel ns lim kw = Except.ok r →
      r.isStrict = true) := by
  refine ⟨?_, ?_, ?_, ?_⟩
  · intro l hl
    rw [select_eq] at hl
    injection hl with he
    subst he
    exact mem_wrapSelect_isStrict m t sel ns lim kw
  · intro r hr
    rw [select_one_eq] at hr
    injection hr with he
    rcases Option.map_eq_some'.mp he with ⟨o, _, rfl⟩
    rfl
  · intro l hl
    rw [strict_select_eq] at hl
    by_cases h : wrapSelect m t sel ns lim kw = []
    · rw [if_pos h] at hl
      cases hl
    · rw [if_neg h] at hl
      injection hl with he
      subst he
      exact mem_wrapSelect_isStrict m t sel ns lim kw
  · intro r hr
    rw [strict_select_one_eq] at hr
    rcases h : wrapSelect m t sel ns lim kw with _ | ⟨x, _ | ⟨y, rest⟩⟩ <;>
      rw [h] at hr
    · cases hr
    · injection hr with he
      subst he
      exact mem_wrapSelect_isStrict m t sel ns lim kw x
        (by rw [h]; exact List.mem_singleton.mpr rfl)
    · cases hr

/-- Witness for C5: the first h2 match returned on the concrete test
document has the strict class. -/
theorem augmentation_transitive_witness :
    (asStrictTag h2TagA).isStrict = true :=
  (augmentation_transitive demoMatches demoRoot "h2" none none []).1
    [asStrictTag h2TagA, asStrictTag h2TagB] (by rfl)
    (asStrictTag h2TagA) (by decide)

/-- C6: for a selector with exactly one match, strict_select_one returns
that match, and its result agrees with the result of select_one with the
same selector. -/
theorem strict_select_one_agrees_select_one (m : MatchFun) (t : Tag)
    (sel : String) (ns : NamespaceMap) (kw : Kwargs) (x : Tag)
    (h : m t sel ns kw = [x]) :
    StrictTag.strict_select_one m t sel ns none kw = Except.ok (asStrictTag x)
  ∧ StrictTag.select_one m t sel ns kw = Except.ok (some (asStrictTag x)) := by
  have hw : wrapSelect m t sel ns none kw = [asStrictTag x] := by
    unfold wrapSelect nativeSelect truncateLimit
    rw [h]
    rfl
  constructor
  · rw [strict_select_one_eq, hw]
  · rw [select_one_eq]
    unfold nativeSelectOne
    rw [h]
    rfl

/-- Witness for C6: selector h1 has exactly one match in the concrete test
document and both operations return it. -/
theorem strict_select_one_agrees_select_one_witness :
    StrictTag.strict_select_one demoMatches demoRoot "h1" none none [] =
      Except.ok (asStrictTag h1Tag)
  ∧ StrictTag.select_one demoMatches demoRoot "h1" none [] =
      Except.ok (some (asStrictTag h1Tag)) :=
  strict_select_one_agrees_select_one demoMatches demoRoot "h1" none [] h1Tag
    (by rfl)

/-- C8: non-interference of the augmentation: every node parsed with the
plain unaugmented engine has the native class and so exposes no strict
operation, and the in-place class assignments performed while converting a
result set change the class of no instance outside that result set, so the
observable behavior of unaugmented instances is unchanged. -/
theorem augmentation_non_interference :
    (∀ i, exposesStrictOps plainParseClassMap i = false)
  ∧ (∀ (cm : ClassMap) (ids : List Nat) (i : Nat), i ∉ ids →
      selectClassEffect cm ids i = cm i)
  ∧ (∀ (cm : ClassMap) (ids : List Nat) (i : Nat), i ∉ ids →
      exposesStrictOps (selectClassEffect cm ids) i = exposesStrictOps cm i) :=
  ⟨fun _ => rfl,
   fun cm ids i h => selectClassEffect_not_mem cm ids i h,
   fun cm ids i h => selectClassEffect_not_mem cm ids i h⟩

/-- Witness for C8: after converting the instances 1 and 2 of a plain
parsed document, the untouched instance 3 still has the native class and
exposes no strict operation. -/
theorem augmentation_non_interference_witness :
    exposesStrictOps plainParseClassMap 0 = false
  ∧ selectClassEffect plainParseClassMap [1, 2] 3 = plainParseClassMap 3
  ∧ exposesStrictOps (selectClassEffect plainParseClassMap [1, 2]) 3 =
      exposesStrictOps plainParseClassMap 3 :=
  ⟨augmentation_non_interference.1 0,
   augmentation_non_interference.2.1 plainParseClassMap [1, 2] 3 (by decide),
   augmentation_non_interference.2.2 plainParseClassMap [1, 2] 3 (by decide)⟩

end StrictSoup
